import Mathlib

/-!
Shallow embedding of the interaction dispatch and order state-machine layer of
the Discord sales bot (`src/app.py`).  Pure data (products, views, responses)
is translated to Lean structures; the Flask route `interactions_handler` and
the background handlers become pure functions over an explicit order-store
state plus an environment describing the outcomes of external HTTP calls.
An uncaught Python exception inside the route is modelled by the `fault`
result (Flask would answer 500); background-thread behaviour is modelled by
the value each background handler would compute (store update, thread post,
follow-up patch).
-/

namespace DiscordBot

/-- One entry of the static `PRODUTOS` dict (`app.py` lines 46-71).
`price_value` (a float such as 50.00) is carried in integer centavos. -/
structure Product where
  id : String
  name : String
  description : String
  price_display : String
  price_value_centavos : Nat
  image_url : String
  payment_link : String
  download_link : String
deriving Repr, DecidableEq, Inhabited

/-- The static in-memory catalog `PRODUTOS`; dict insertion order gives the
paging order, so it is a list here. -/
def PRODUTOS : List Product :=
  [ { id := "bot_musica", name := "Bot de Música Avançado"
    , description := "Um bot completo para tocar músicas do YouTube e Spotify com alta qualidade."
    , price_display := "R$ 50,00", price_value_centavos := 5000
    , image_url := "https://i.imgur.com/r7ovmwr.png"
    , payment_link := "https://link.mercadopago.com.br/SEU_LINK_AQUI_1"
    , download_link := "https://github.com/SEU_USUARIO/SEU_REPOSITORIO_MUSICA/archive/refs/heads/main.zip" }
  , { id := "bot_moderacao", name := "Bot de Moderação Inteligente"
    , description := "Modere seu servidor com comandos automáticos, filtros e sistema de avisos."
    , price_display := "R$ 75,00", price_value_centavos := 7500
    , image_url := "https://i.imgur.com/zZqY2c2.png"
    , payment_link := "https://link.mercadopago.com.br/SEU_LINK_AQUI_2"
    , download_link := "https://github.com/SEU_USUARIO/SEU_REPOSITORIO_MODERACAO/archive/refs/heads/main.zip" }
  , { id := "bot_economia", name := "Bot de Economia Global"
    , description := "Sistema de economia com lojas, trabalhos e ranking para engajar seus membros."
    , price_display := "R$ 40,00", price_value_centavos := 4000
    , image_url := "https://i.imgur.com/T2yS1xQ.png"
    , payment_link := "https://link.mercadopago.com.br/SEU_LINK_AQUI_3"
    , download_link := "https://github.com/SEU_USUARIO/SEU_REPOSITORIO_ECONOMIA/archive/refs/heads/main.zip" } ]

/-- A row of the `pedidos` table.  Rows are created by `handle_buy_action`,
which always fills `user_id`, `user_name`, `product_id`, `product_name` and
`thread_id`; `thread_id` stays `Option` because the code tests its truthiness
with `order.get('thread_id')`.  `created_at_ts` carries the value of
`int(datetime.fromisoformat(created_at).timestamp())` directly, standing in
for the ISO timestamp string parsing. -/
structure Order where
  id : Int
  user_id : Int
  user_name : String
  product_id : String
  product_name : String
  thread_id : Option Int
  status : String
  created_at_ts : Int
deriving Repr, DecidableEq, Inhabited

/-- A field of a Discord embed (`Embed.add_field`). -/
structure EmbedField where
  name : String
  value : String
  inl : Bool
deriving Repr, DecidableEq, Inhabited

/-- A Discord embed as built by the code (`discord.Embed(...).to_dict()`);
colors are kept symbolically (`"orange"`, `"green"`, `"blue"`, `"#5865F2"`). -/
structure DEmbed where
  title : String
  description : Option String
  color : String
  fields : List EmbedField
  image_url : Option String
  footer : Option String
deriving Repr, DecidableEq, Inhabited

/-- One button inside an action row (the `{"type": 2, ...}` dicts). -/
structure Button where
  style : Nat
  label : Option String
  emoji : Option String
  custom_id : Option String
  url : Option String
  disabled : Bool
deriving Repr, DecidableEq, Inhabited

/-- An action row (the `{"type": 1, "components": [...]}` dicts). -/
structure ActionRow where
  buttons : List Button
deriving Repr, DecidableEq, Inhabited

/-- The `data` object of an interaction response / message payload. -/
structure ResponseData where
  content : Option String
  embeds : List DEmbed
  components : List ActionRow
  flags : Option Nat
deriving Repr, DecidableEq, Inhabited

/-- A JSON interaction response `{"type": t, "data": ...}`. -/
structure InteractionResponse where
  rtype : Nat
  data : Option ResponseData
deriving Repr, DecidableEq, Inhabited

/-- `interaction['member']['user']` fields used by `handle_buy_action`. -/
structure DUser where
  id : String
  username : String
deriving Repr, DecidableEq, Inhabited

/-- `interaction['member']`: both `user` and `roles` may be absent from the
JSON payload, hence `Option`. -/
structure Member where
  user : Option DUser
  roles : Option (List String)
deriving Repr, DecidableEq, Inhabited

/-- `interaction['data']`: `name` is present for commands, `custom_id` for
components; either may be absent (a direct `['name']` access then raises
`KeyError`). -/
structure InteractionData where
  name : Option String
  custom_id : Option String
deriving Repr, DecidableEq, Inhabited

/-- An inbound interaction payload (`request.json`). -/
structure Interaction where
  itype : Int
  data : Option InteractionData
  member : Option Member
  token : String
  channel_id : Option String
deriving Repr, DecidableEq, Inhabited

/-- One inbound HTTP POST to `/interactions`: the two signature headers
(`headers.get` yields `None` when absent), the raw body bytes
(`request.data`, decoded to UTF-8 by the handler itself), and the parsed
JSON body (`request.json`) carried alongside. -/
structure HttpRequest where
  signature : Option String
  timestamp : Option String
  rawBody : List Nat
  interaction : Interaction
deriving Repr, Inhabited

/-- Background tasks spawned with `threading.Thread(...).start()`, carrying
exactly the parts of the interaction that the target handler reads. -/
inductive BgTask where
  | dashboard (token : String)
  | buy (token : String) (custom_id : String) (channel_id : Option String) (member : Option Member)
  | confirmOrder (token : String) (custom_id : String)
  | cancelOrder (token : String) (custom_id : String)
deriving Repr, DecidableEq

/-- What the route hands back to Flask: a plain-text status response, a JSON
interaction response, or an uncaught exception (HTTP 500). -/
inductive HttpResult where
  | plain (status : Nat) (text : String)
  | json (r : InteractionResponse)
  | fault (msg : String)
deriving Repr, DecidableEq

/-- Result of one `interactions_handler` invocation: the HTTP result, the
background tasks spawned, and whether the order store was queried
synchronously. -/
structure Outcome where
  result : HttpResult
  spawned : List BgTask
  storeQueried : Bool
deriving Repr, DecidableEq

/-- Python truthiness of an optional header string: `not signature` is true
when the header is absent or empty. -/
def pyFalsy : Option String → Bool
  | none => true
  | some s => s == ""

/-- Python truthiness of a nullable integer column: `order.get('thread_id')`
is falsy when absent, `None`, or `0`. -/
def pyTruthy : Option Int → Bool
  | none => false
  | some t => t != 0

/-- Python `s.startswith(p)`, written over the character lists so that
prefix-disjointness facts are provable for abstract strings. -/
def pyStartsWith (s p : String) : Bool :=
  p.data.isPrefixOf s.data

/-- Splitting a character list on a separator, the char-list core of
Python's `s.split(sep)` (e.g. splitting `"a_"` gives `["a", ""]` and
splitting `""` gives `[""]`). -/
def splitChars (sep : Char) : List Char → List (List Char)
  | [] => [[]]
  | c :: cs =>
    if c == sep then [] :: splitChars sep cs
    else
      match splitChars sep cs with
      | [] => [[c]]
      | g :: gs => (c :: g) :: gs

/-- Python `s.split('_')`. -/
def pySplit (sep : Char) (s : String) : List String :=
  (splitChars sep s.data).map (fun cs => ⟨cs⟩)

/-- Digit accumulation for `int(...)`: fails on any non-digit character. -/
def natOfDigitsAux : List Char → Nat → Option Nat
  | [], acc => some acc
  | c :: cs, acc =>
      if c.isDigit then natOfDigitsAux cs (acc * 10 + (c.toNat - 48)) else none

/-- Python `int(s)` restricted to the optional-sign-plus-digits strings the
code itself produces in custom identifiers; everything else raises
`ValueError`, modelled as `none`. -/
def pyToInt (s : String) : Option Int :=
  match s.data with
  | [] => none
  | '-' :: cs =>
      match cs with
      | [] => none
      | _ => (natOfDigitsAux cs 0).map (fun n => -(n : Int))
  | cs => (natOfDigitsAux cs 0).map (fun n => (n : Int))

/-- Python `s.split('_', 1)[1]`: everything after the first underscore
(used for `product_id = custom_id.split('_', 1)[1]`, which is only reached
for identifiers starting with `buy_`). -/
def splitFirstTail (s : String) : String :=
  match splitChars '_' s.data with
  | [] => s
  | head :: _ => ⟨s.data.drop (head.length + 1)⟩

/-- The `int(...)` parse of one `split('_')` field: `parts[idx]` raises
`IndexError` when absent and `int` raises `ValueError` on non-numeric text;
both failure modes collapse to `none`. -/
def parseIntPart (parts : List String) (idx : Nat) : Option Int :=
  (parts[idx]?).bind pyToInt

/-- `is_admin` (`app.py` lines 75-78): missing `member` or missing `roles`
yields `False`; otherwise tests `str(ADMIN_ROLE_ID) in roles`. -/
def is_admin (adminRoleId : Int) (interaction : Interaction) : Bool :=
  match interaction.member with
  | none => false
  | some m =>
    match m.roles with
    | none => false
    | some roles => roles.contains (toString adminRoleId)

/-- The clamp `max(0, min(page, n - 1))` (over Python ints), landing on a
list index. -/
def clampPage (page : Int) (n : Nat) : Nat :=
  (max 0 (min page ((n : Int) - 1))).toNat

/-- Insertion into a list sorted by ascending `id`. -/
def insertById (o : Order) : List Order → List Order
  | [] => [o]
  | x :: xs => if o.id ≤ x.id then o :: x :: xs else x :: insertById o xs

/-- Sort by ascending `id`, modelling the store's `.order('id')`. -/
def sortById (l : List Order) : List Order := l.foldr insertById []

/-- The query `select('*').eq('status', 'pending_payment').order('id')`. -/
def selectPending (store : List Order) : List Order :=
  sortById (store.filter (fun o => o.status == "pending_payment"))

/-- The `update({'status': s}).eq('id', oid)` write: every row whose `id`
matches gets the new status; no current-status filter is applied. -/
def updateStatusById (store : List Order) (oid : Int) (newStatus : String) : List Order :=
  store.map (fun o => if o.id == oid then { o with status := newStatus } else o)

/-- The embed of one pending order (`build_pending_orders_view`). -/
def pendingOrderEmbed (order : Order) (page : Nat) (total : Nat) : DEmbed :=
  { title := "Pedido Pendente #" ++ toString order.id
  , description := some ("**Produto:** " ++ order.product_name)
  , color := "orange"
  , fields :=
      [ ⟨"Cliente", order.user_name ++ " (`" ++ toString order.user_id ++ "`)", false⟩
      , ⟨"Data do Pedido", "<t:" ++ toString order.created_at_ts ++ ":f>", false⟩ ]
  , image_url := none
  , footer := some ("Pedido " ++ toString (page + 1) ++ " de " ++ toString total) }

/-- The two component rows of the pending-orders view. -/
def pendingOrderComponents (order : Order) (page : Nat) (total : Nat) : List ActionRow :=
  [ ⟨[ ⟨3, some "✅ Confirmar", none,
        some ("pedidos_confirm_" ++ toString order.id ++ "_" ++ toString page), none, false⟩
     , ⟨4, some "❌ Cancelar", none,
        some ("pedidos_cancel_" ++ toString order.id ++ "_" ++ toString page), none, false⟩ ]⟩
  , ⟨[ ⟨2, none, some "⬅️", some ("pedidos_prev_" ++ toString page), none, page == 0⟩
     , ⟨2, none, some "➡️", some ("pedidos_next_" ++ toString page), none,
        decide (total - 1 ≤ page)⟩ ]⟩ ]

/-- `build_pending_orders_view` (`app.py` lines 80-113) over an
already-fetched pending list (the store query is modelled as succeeding;
its error branch is out of the claims' scope).  Empty list: the fixed
informational message with no components; otherwise the page is clamped and
one order is rendered. -/
def build_pending_orders_view (pending : List Order) (page : Int) : ResponseData :=
  if pending.isEmpty then
    { content := some "✅ Não há pedidos pendentes no momento."
    , embeds := [], components := [], flags := none }
  else
    let pageC := clampPage page pending.length
    let order := pending.getD pageC default
    { content := some ""
    , embeds := [pendingOrderEmbed order pageC pending.length]
    , components := pendingOrderComponents order pageC pending.length
    , flags := none }

/-- The catalog embed for one product (inline in `interactions_handler`,
`app.py` line 262; identical structure is inlined at line 245). -/
def catalogEmbed (product : Product) (page : Nat) (total : Nat) : DEmbed :=
  { title := product.name
  , description := none
  , color := "#5865F2"
  , fields :=
      [ ⟨"💰 Preço", "**`" ++ product.price_display ++ "`**", true⟩
      , ⟨"📦 O que você recebe?", "Código-fonte completo", true⟩
      , ⟨"📄 Descrição", product.description, false⟩ ]
  , image_url := some product.image_url
  , footer := some ("Página " ++ toString (page + 1) ++ " de " ++ toString total) }

/-- The two component rows of the catalog view at a page. -/
def catalogComponents (product : Product) (page : Nat) (total : Nat) : List ActionRow :=
  [ ⟨[ ⟨3, some "Comprar este Item", some "🛒", some ("buy_" ++ product.id), none, false⟩ ]⟩
  , ⟨[ ⟨2, none, some "⬅️", some ("catalog_prev_" ++ toString page), none, page == 0⟩
     , ⟨2, none, some "➡️", some ("catalog_next_" ++ toString page), none,
        decide (total - 1 ≤ page)⟩ ]⟩ ]

/-- The catalog view at a (already clamped) page; the index into `PRODUTOS`
is total because the caller clamps into `[0, PRODUTOS.length - 1]` and the
static catalog is nonempty. -/
def catalogView (page : Nat) : ResponseData :=
  let product := PRODUTOS.getD page default
  { content := none
  , embeds := [catalogEmbed product page PRODUTOS.length]
  , components := catalogComponents product page PRODUTOS.length
  , flags := none }

/-- Python `1 if action == "next" else -1`. -/
def pyStep (action : String) : Int :=
  if action == "next" then 1 else -1

/-- The `catalog_` component branch after the page field parsed: clamp the
requested page and answer with an immediate update (type 7). -/
def catalogNavigate (action : String) (page : Int) : Outcome :=
  let new_page := clampPage (page + pyStep action) PRODUTOS.length
  ⟨.json ⟨7, some (catalogView new_page)⟩, [], false⟩

/-- The `/comprar` response data, written out exactly as the inline
expression at `app.py` line 245 (always page 0 of the catalog, ephemeral). -/
def comprarData : ResponseData :=
  let first := PRODUTOS.getD 0 default
  { content := none
  , embeds :=
      [ { title := first.name
        , description := none
        , color := "#5865F2"
        , fields :=
            [ ⟨"💰 Preço", "**`" ++ first.price_display ++ "`**", true⟩
            , ⟨"📦 O que você recebe?", "Código-fonte completo", true⟩
            , ⟨"📄 Descrição", first.description, false⟩ ]
        , image_url := some first.image_url
        , footer := some ("Página 1 de " ++ toString PRODUTOS.length) } ]
  , components :=
      [ ⟨[ ⟨3, some "Comprar este Item", some "🛒", some ("buy_" ++ first.id), none, false⟩ ]⟩
      , ⟨[ ⟨2, none, some "⬅️", some "catalog_prev_0", none, true⟩
         , ⟨2, none, some "➡️", some "catalog_next_0", none,
            decide (PRODUTOS.length ≤ 1)⟩ ]⟩ ]
  , flags := some 64 }

/-- `{"content": "Interação não reconhecida.", "flags": 64}`. -/
def genericData : ResponseData :=
  { content := some "Interação não reconhecida.", embeds := [], components := [], flags := some 64 }

/-- `{"content": "❌ Você não tem permissão.", "flags": 64}`. -/
def permissionDeniedData : ResponseData :=
  { content := some "❌ Você não tem permissão.", embeds := [], components := [], flags := some 64 }

/-- `{"flags": 64}`, the data of the deferred (type 5) acknowledgements. -/
def ephemeralDeferData : ResponseData :=
  { content := none, embeds := [], components := [], flags := some 64 }

/-- The fallback response at `app.py` line 283, reached by every request no
earlier branch returned for. -/
def genericOutcome : Outcome :=
  ⟨.json ⟨4, some genericData⟩, [], false⟩

/-- The `itype == 2` (slash command) block of `interactions_handler`,
lines 240-256, dispatching on the command name; an unmatched name falls
through to the generic response at line 283. -/
def commandRoute (adminRoleId : Int) (store : List Order) (i : Interaction)
    (name : String) : Outcome :=
  if name == "comprar" then ⟨.json ⟨4, some comprarData⟩, [], false⟩
  else if name == "pedidos" then
    if !is_admin adminRoleId i then ⟨.json ⟨4, some permissionDeniedData⟩, [], false⟩
    else
      ⟨.json ⟨4, some { build_pending_orders_view (selectPending store) 0 with flags := some 64 }⟩,
       [], true⟩
  else if name == "dashboard" then
    if !is_admin adminRoleId i then ⟨.json ⟨4, some permissionDeniedData⟩, [], false⟩
    else ⟨.json ⟨5, some ephemeralDeferData⟩, [.dashboard i.token], false⟩
  else genericOutcome

/-- The `pedidos_` component branch, lines 268-281. -/
def pedidosComponent (store : List Order) (token cid : String) : Outcome :=
  let parts := pySplit '_' cid
  let action := parts.getD 1 ""
  if action == "prev" || action == "next" then
    match parseIntPart parts 2 with
    | none => ⟨.fault "pedidos page field missing or non-numeric", [], false⟩
    | some page =>
      ⟨.json ⟨7, some (build_pending_orders_view (selectPending store) (page + pyStep action))⟩,
       [], true⟩
  else if action == "confirm" then ⟨.json ⟨6, none⟩, [.confirmOrder token cid], false⟩
  else if action == "cancel" then ⟨.json ⟨6, none⟩, [.cancelOrder token cid], false⟩
  else genericOutcome

/-- The `itype == 3` (component) block of `interactions_handler`,
lines 258-281, dispatching on the custom-identifier prefix; an unmatched
prefix falls through to the generic response at line 283. -/
def componentRoute (store : List Order) (token : String)
    (channel_id : Option String) (member : Option Member) (cid : String) : Outcome :=
  if pyStartsWith cid "catalog_" then
    let parts := pySplit '_' cid
    let action := parts.getD 1 ""
    match parseIntPart parts 2 with
    | none => ⟨.fault "catalog page field missing or non-numeric", [], false⟩
    | some page => catalogNavigate action page
  else if pyStartsWith cid "buy_" then
    ⟨.json ⟨5, some ephemeralDeferData⟩, [.buy token cid channel_id member], false⟩
  else if pyStartsWith cid "pedidos_" then
    pedidosComponent store token cid
  else genericOutcome

/-- The router body of `interactions_handler` after signature verification
(`app.py` lines 235-283): dispatch on interaction type, command name, and
custom-identifier prefix.  Missing-key accesses and failed `int(...)` parses
become `fault` (an uncaught exception, HTTP 500). -/
def route (adminRoleId : Int) (store : List Order) (i : Interaction) : Outcome :=
  if i.itype == 1 then ⟨.json ⟨1, none⟩, [], false⟩
  else if i.itype == 2 then
    match i.data with
    | none => ⟨.fault "KeyError: data", [], false⟩
    | some d =>
      match d.name with
      | none => ⟨.fault "KeyError: name", [], false⟩
      | some name => commandRoute adminRoleId store i name
  else if i.itype == 3 then
    match i.data with
    | none => ⟨.fault "KeyError: data", [], false⟩
    | some d =>
      match d.custom_id with
      | none => ⟨.fault "KeyError: custom_id", [], false⟩
      | some cid => componentRoute store i.token i.channel_id i.member cid
  else genericOutcome

/-- Whether a byte is a UTF-8 continuation byte (`0x80..0xBF`). -/
def isCont (b : Nat) : Bool :=
  128 ≤ b && b ≤ 191

/-- Strict UTF-8 decoding of a byte list to characters, as Python's
`bytes.decode('utf-8')`: rejects stray continuation bytes, truncated
sequences, overlong encodings, surrogates and values above `0x10FFFF`
(all of which raise `UnicodeDecodeError`, modelled as `none`). -/
def utf8DecodeChars : List Nat → Option (List Char)
  | [] => some []
  | b0 :: rest =>
    if b0 ≤ 127 then
      (utf8DecodeChars rest).map (fun cs => Char.ofNat b0 :: cs)
    else if 194 ≤ b0 && b0 ≤ 223 then
      match rest with
      | b1 :: rest1 =>
        if isCont b1 then
          (utf8DecodeChars rest1).map
            (fun cs => Char.ofNat ((b0 - 192) * 64 + (b1 - 128)) :: cs)
        else none
      | [] => none
    else if 224 ≤ b0 && b0 ≤ 239 then
      match rest with
      | b1 :: b2 :: rest2 =>
        let lo1 := if b0 == 224 then 160 else 128
        let hi1 := if b0 == 237 then 159 else 191
        if lo1 ≤ b1 && b1 ≤ hi1 && isCont b2 then
          (utf8DecodeChars rest2).map
            (fun cs => Char.ofNat ((b0 - 224) * 4096 + (b1 - 128) * 64 + (b2 - 128)) :: cs)
        else none
      | _ => none
    else if 240 ≤ b0 && b0 ≤ 244 then
      match rest with
      | b1 :: b2 :: b3 :: rest3 =>
        let lo1 := if b0 == 240 then 144 else 128
        let hi1 := if b0 == 244 then 143 else 191
        if lo1 ≤ b1 && b1 ≤ hi1 && isCont b2 && isCont b3 then
          (utf8DecodeChars rest3).map
            (fun cs => Char.ofNat
              ((b0 - 240) * 262144 + (b1 - 128) * 4096 + (b2 - 128) * 64 + (b3 - 128)) :: cs)
        else none
      | _ => none
    else none

/-- Python `request.data.decode('utf-8')`: `none` is the raised
`UnicodeDecodeError`. -/
def pyDecodeUtf8 (bytes : List Nat) : Option String :=
  (utf8DecodeChars bytes).map (fun cs => ⟨cs⟩)

/-- The full `/interactions` handler (`app.py` lines 224-283).  The body is
decoded from its raw bytes first (line 228), *before* the header check at
line 229, so an undecodable body is an uncaught `UnicodeDecodeError` (500)
even when a signature header is missing.  `hexOk` models `bytes.fromhex`
succeeding on the signature header with a valid ed25519 signature length
(its failure is an uncaught `ValueError`); `verifies msg sig` models
`verify_key.verify` accepting the signature over `timestamp + body`. -/
def interactions_handler (adminRoleId : Int) (hexOk : String → Bool)
    (verifies : String → String → Bool) (store : List Order)
    (req : HttpRequest) : Outcome :=
  match pyDecodeUtf8 req.rawBody with
  | none => ⟨.fault "UnicodeDecodeError: body is not valid UTF-8", [], false⟩
  | some body =>
    if pyFalsy req.signature || pyFalsy req.timestamp then
      ⟨.plain 401 "Missing signature headers", [], false⟩
    else if !hexOk (req.signature.getD "") then
      ⟨.fault "ValueError: malformed signature", [], false⟩
    else if !verifies (req.timestamp.getD "" ++ body) (req.signature.getD "") then
      ⟨.plain 401 "Invalid request signature", [], false⟩
    else
      route adminRoleId store req.interaction

/-- Outcome of one external HTTP call made with `requests`: a raised
network-level exception, or a response carrying a status code (a non-2xx
status does not raise by itself). -/
inductive CallResult where
  | exn
  | status (code : Nat)
deriving Repr, DecidableEq

/-- Whether `resp.raise_for_status()` raises: on a network exception the
call itself already raised; otherwise it raises exactly for 4xx/5xx. -/
def raisesForStatus : CallResult → Bool
  | .exn => true
  | .status code => decide (400 ≤ code)

/-- Whether the bare call raised (its status code is never inspected). -/
def raisesOnCall : CallResult → Bool
  | .exn => true
  | .status _ => false

/-- Whether a status code is a 2xx success. -/
def is2xx (code : Nat) : Bool :=
  decide (200 ≤ code) && decide (code < 300)

/-- Outcomes of the external calls made by `handle_buy_action`, in program
order: thread creation, thread membership add, the supabase insert
(`insertOk = false` means the client raised), and the payment-message post.
`threadId` is the id of the created thread. -/
structure BuyEnv where
  threadCreate : CallResult
  threadId : Nat
  memberAdd : CallResult
  insertOk : Bool
  messagePost : CallResult
deriving Repr, DecidableEq

/-- The single follow-up patched to `@original` by `handle_buy_action`. -/
inductive BuyFollowup where
  | productNotFound
  | failure
  | success (threadId : Nat)
deriving Repr, DecidableEq

/-- The message content each follow-up carries. -/
def buyFollowupContent : BuyFollowup → String
  | .productNotFound => "❌ Produto não encontrado."
  | .failure => "❌ Ocorreu um erro inesperado ao processar sua compra."
  | .success threadId =>
      "✅ Criei um canal de compras privado para você! Clique aqui para finalizar: <#"
        ++ toString threadId ++ ">"

/-- `handle_buy_action` (`app.py` lines 171-200), reduced to the follow-up
it patches.  The whole body runs under one `try`: a missing `member`/`user`
or `channel_id` key, a raised thread-creation call or its
`raise_for_status()`, a raised membership-add or message-post call, and a
failed insert are all caught and turned into the generic failure follow-up.
The membership-add and message-post status codes are never inspected. -/
def handle_buy_action (env : BuyEnv) (custom_id : String)
    (channel_id : Option String) (member : Option Member) : BuyFollowup :=
  let product_id := splitFirstTail custom_id
  match PRODUTOS.find? (fun p => p.id == product_id) with
  | none => .productNotFound
  | some _ =>
    match member.bind Member.user, channel_id with
    | some _, some _ =>
      if raisesForStatus env.threadCreate then .failure
      else if raisesOnCall env.memberAdd then .failure
      else if !env.insertOk then .failure
      else if raisesOnCall env.messagePost then .failure
      else .success env.threadId
    | _, _ => .failure

/-- What the original admin message is patched with at the end of a
confirm/cancel background task: the re-rendered pending view, a scoped
error message, or nothing at all (the `except` branch itself raises
`NameError` on `order_id` when the custom-identifier fields failed to
parse, so no patch is delivered). -/
inductive PatchMsg where
  | view (d : ResponseData)
  | errorText (s : String)
  | nothing
deriving Repr, DecidableEq

/-- Result of a confirm/cancel background task: the updated store, the
message posted into the order's thread (if any), and the patch to the
original admin message. -/
structure OrderActionOutcome where
  store : List Order
  threadPost : Option ResponseData
  patch : PatchMsg
deriving Repr, DecidableEq

/-- Parse `order_id = int(parts[2])` and `current_page = int(parts[3])`
from a confirm/cancel custom identifier. -/
def parseIdAndPage (cid : String) : Option (Int × Int) :=
  let parts := pySplit '_' cid
  match parseIntPart parts 2, parseIntPart parts 3 with
  | some a, some b => some (a, b)
  | _, _ => none

/-- The download-link message `handle_confirm_order` posts into the thread. -/
def confirmThreadMessage (order : Order) (product : Product) : ResponseData :=
  { content := none
  , embeds :=
      [ { title := "✅ Pagamento Confirmado!"
        , description := some ("Olá <@" ++ toString order.user_id
            ++ ">, seu pagamento para o **" ++ order.product_name
            ++ "** foi confirmado!\n\nObrigado pela compra. Abaixo está o link para download.")
        , color := "green", fields := [], image_url := none, footer := none } ]
  , components := [⟨[⟨5, some "Clique aqui para Baixar", none, none, some product.download_link, false⟩]⟩]
  , flags := none }

/-- Body of `handle_confirm_order` after the custom-identifier fields
parsed (`app.py` lines 117-144): unconditionally update the status to
`completed`, re-select the row (`single()` raising when no row matches is
the error branch), post the download link when the thread id is truthy and
the product still exists, and patch the re-rendered pending view.  External
store and platform calls are modelled as succeeding. -/
def confirm_order_core (store : List Order) (order_id current_page : Int) : OrderActionOutcome :=
  let store1 := updateStatusById store order_id "completed"
  match store1.find? (fun o => o.id == order_id) with
  | none => ⟨store1, none, .errorText ("❌ Erro ao confirmar o pedido #" ++ toString order_id ++ ".")⟩
  | some order =>
    let product := PRODUTOS.find? (fun p => p.id == order.product_id)
    let post :=
      match product with
      | some p => if pyTruthy order.thread_id then some (confirmThreadMessage order p) else none
      | none => none
    ⟨store1, post, .view (build_pending_orders_view (selectPending store1) current_page)⟩

/-- `handle_confirm_order` over the raw custom identifier. -/
def handle_confirm_order (store : List Order) (cid : String) : OrderActionOutcome :=
  match parseIdAndPage cid with
  | some (order_id, current_page) => confirm_order_core store order_id current_page
  | none => ⟨store, none, .nothing⟩

/-- The cancellation notice `handle_cancel_order` posts into the thread. -/
def cancelThreadMessage (order : Order) : ResponseData :=
  { content := some ("Olá <@" ++ toString order.user_id
      ++ ">, infelizmente seu pedido para o produto **" ++ order.product_name
      ++ "** foi cancelado por um administrador.")
  , embeds := [], components := [], flags := none }

/-- Body of `handle_cancel_order` after the custom-identifier fields parsed
(`app.py` lines 146-169): symmetric to confirm with status `cancelled` and
a plain cancellation notice (no product lookup needed for the post). -/
def cancel_order_core (store : List Order) (order_id current_page : Int) : OrderActionOutcome :=
  let store1 := updateStatusById store order_id "cancelled"
  match store1.find? (fun o => o.id == order_id) with
  | none => ⟨store1, none, .errorText ("❌ Erro ao cancelar o pedido #" ++ toString order_id ++ ".")⟩
  | some order =>
    let post := if pyTruthy order.thread_id then some (cancelThreadMessage order) else none
    ⟨store1, post, .view (build_pending_orders_view (selectPending store1) current_page)⟩

/-- `handle_cancel_order` over the raw custom identifier. -/
def handle_cancel_order (store : List Order) (cid : String) : OrderActionOutcome :=
  match parseIdAndPage cid with
  | some (order_id, current_page) => cancel_order_core store order_id current_page
  | none => ⟨store, none, .nothing⟩

/-- Page reached after `k` further `catalog_next` clicks starting at `p`. -/
def iterNext : Nat → Nat → Nat
  | 0, p => p
  | k + 1, p => iterNext k (clampPage ((p : Int) + 1) PRODUTOS.length)

/-! Helper lemmas. -/

/-- Two `pyStartsWith` prefixes whose first characters differ cannot both
match. -/
theorem pyStartsWith_ne_head (cid p q : String) (cp cq : Char) (lp lq : List Char)
    (hp : p.data = cp :: lp) (hq : q.data = cq :: lq) (hne : cp ≠ cq)
    (h : pyStartsWith cid p = true) : pyStartsWith cid q = false := by
  unfold pyStartsWith at *
  rw [hp] at h
  rw [hq]
  cases hd : cid.data with
  | nil => rw [hd] at h; simp [List.isPrefixOf] at h
  | cons c l =>
    rw [hd] at h
    simp [List.isPrefixOf] at h ⊢
    intro hcq
    exact (hne (h.1.trans hcq.symm)).elim

/-- The code's page clamp always lands strictly below the item count when
the item list is nonempty. -/
theorem clampPage_lt (p : Int) (n : Nat) (h : 0 < n) : clampPage p n < n := by
  unfold clampPage
  have h1 : min p ((n : Int) - 1) ≤ (n : Int) - 1 := min_le_right _ _
  have h2 : (0 : Int) ≤ max 0 (min p ((n : Int) - 1)) := le_max_left _ _
  have h3 : max 0 (min p ((n : Int) - 1)) ≤ (n : Int) - 1 := max_le (by omega) h1
  omega

/-- Updating the status of an order to the status it already has is the
identity. -/
theorem order_set_status_self (o : Order) (s : String) (h : o.status = s) :
    { o with status := s } = o := by
  subst h; cases o; rfl

/-- Both branches of `confirm_order_core` leave the same store: the
unconditional `completed` update. -/
theorem confirm_order_core_store (store : List Order) (oid page : Int) :
    (confirm_order_core store oid page).store = updateStatusById store oid "completed" := by
  unfold confirm_order_core
  dsimp only
  split <;> rfl

/-- Both branches of `cancel_order_core` leave the same store: the
unconditional `cancelled` update. -/
theorem cancel_order_core_store (store : List Order) (oid page : Int) :
    (cancel_order_core store oid page).store = updateStatusById store oid "cancelled" := by
  unfold cancel_order_core
  dsimp only
  split <;> rfl

/-- Any order in an updated store that carries the updated id carries the
new status. -/
theorem updateStatusById_mem_status (store : List Order) (oid : Int) (s : String)
    (o : Order) (ho : o ∈ updateStatusById store oid s) (hid : o.id = oid) :
    o.status = s := by
  simp only [updateStatusById, List.mem_map] at ho
  obtain ⟨x, hx, hxo⟩ := ho
  by_cases hb : x.id = oid
  · simp only [hb, beq_self_eq_true, if_true] at hxo
    rw [← hxo]
  · simp only [beq_eq_false_iff_ne.mpr hb, Bool.false_eq_true, if_false] at hxo
    subst hxo
    exact absurd hid hb

/-- Orders with a different id survive the update unchanged. -/
theorem updateStatusById_mem_other (store : List Order) (oid : Int) (s : String)
    (o : Order) (ho : o ∈ store) (hne : o.id ≠ oid) :
    o ∈ updateStatusById store oid s := by
  simp only [updateStatusById, List.mem_map]
  exact ⟨o, ho, by simp [beq_eq_false_iff_ne.mpr hne]⟩

/-- If every order with the updated id already carries the new status, the
update is a no-op. -/
theorem updateStatusById_noop (store : List Order) (oid : Int) (s : String) :
    (∀ o, o ∈ store → o.id = oid → o.status = s) →
    updateStatusById store oid s = store := by
  induction store with
  | nil => intro _; rfl
  | cons a l ih =>
    intro h
    unfold updateStatusById at *
    simp only [List.map_cons]
    rw [ih (fun o ho hid => h o (List.mem_cons_of_mem a ho) hid)]
    by_cases hb : a.id = oid
    · rw [if_pos (by simp [hb])]
      rw [order_set_status_self a s (h a (List.mem_cons_self a l) hb)]
    · rw [if_neg (by simp [hb])]

/-- The spawn/acknowledgement shape of the command block. -/
theorem commandRoute_spawn_shape (adminRoleId : Int) (store : List Order)
    (i : Interaction) (name : String) :
    (commandRoute adminRoleId store i name).spawned = [] ∨
      (commandRoute adminRoleId store i name).result = .json ⟨5, some ephemeralDeferData⟩ ∨
      (commandRoute adminRoleId store i name).result = .json ⟨6, none⟩ := by
  unfold commandRoute
  repeat' split
  all_goals first
    | exact Or.inl rfl
    | exact Or.inr (Or.inl rfl)
    | exact Or.inr (Or.inr rfl)

/-- The spawn/acknowledgement shape of the `pedidos_` component branch. -/
theorem pedidosComponent_spawn_shape (store : List Order) (token cid : String) :
    (pedidosComponent store token cid).spawned = [] ∨
      (pedidosComponent store token cid).result = .json ⟨5, some ephemeralDeferData⟩ ∨
      (pedidosComponent store token cid).result = .json ⟨6, none⟩ := by
  unfold pedidosComponent
  dsimp only
  repeat' split
  all_goals first
    | exact Or.inl rfl
    | exact Or.inr (Or.inl rfl)
    | exact Or.inr (Or.inr rfl)

/-- The spawn/acknowledgement shape of the component block. -/
theorem componentRoute_spawn_shape (store : List Order) (token : String)
    (ch : Option String) (m : Option Member) (cid : String) :
    (componentRoute store token ch m cid).spawned = [] ∨
      (componentRoute store token ch m cid).result = .json ⟨5, some ephemeralDeferData⟩ ∨
      (componentRoute store token ch m cid).result = .json ⟨6, none⟩ := by
  unfold componentRoute catalogNavigate
  dsimp only
  repeat' split
  all_goals first
    | exact Or.inl rfl
    | exact Or.inr (Or.inl rfl)
    | exact Or.inr (Or.inr rfl)
    | exact pedidosComponent_spawn_shape store token cid

/-- Every route outcome either spawns nothing or acknowledges with the
deferred type 5 (ephemeral) or type 6 (update) response. -/
theorem route_spawn_shape (adminRoleId : Int) (store : List Order) (i : Interaction) :
    (route adminRoleId store i).spawned = [] ∨
      (route adminRoleId store i).result = .json ⟨5, some ephemeralDeferData⟩ ∨
      (route adminRoleId store i).result = .json ⟨6, none⟩ := by
  unfold route
  repeat' split
  all_goals first
    | exact Or.inl rfl
    | exact commandRoute_spawn_shape adminRoleId store i _
    | exact componentRoute_spawn_shape store i.token i.channel_id i.member _

/-! Claim theorems. -/

/-- C1 counterexample: the body is decoded to UTF-8 (line 228) *before* the
header check (line 229), so a request that is missing the signature header
but carries the non-UTF-8 body byte `0xFF` is answered with an uncaught
`UnicodeDecodeError` (HTTP 500), not the claimed authentication-missing
401. -/
theorem C1_counterexample :
    interactions_handler 1 (fun _ => true) (fun _ _ => false) []
        { signature := none, timestamp := some "171", rawBody := [255]
        , interaction := default }
      = ⟨.fault "UnicodeDecodeError: body is not valid UTF-8", [], false⟩ ∧
    interactions_handler 1 (fun _ => true) (fun _ _ => false) []
        { signature := none, timestamp := some "171", rawBody := [255]
        , interaction := default }
      ≠ ⟨.plain 401 "Missing signature headers", [], false⟩ := by
  decide

/-- C1 as amended: for every inbound request whose body decodes as UTF-8, a
missing (or empty) signature header yields the authentication-missing 401
without consulting the decoded body or the parsed interaction, and a
request with both headers present, a well-formed signature value, and a
signature that does not verify over `timestamp ++ body` yields the
invalid-signature 401; in both cases no background task is spawned and no
store access occurs — the Router is never invoked.  (The body is decoded
before the header check, so a non-UTF-8 body is instead answered with an
uncaught `UnicodeDecodeError` 500 even when a header is missing.) -/
theorem C1_amended_signature_gate (adminRoleId : Int) (hexOk : String → Bool)
    (verifies : String → String → Bool) (store : List Order) (req : HttpRequest)
    (body : String) (hdec : pyDecodeUtf8 req.rawBody = some body) :
    ((pyFalsy req.signature || pyFalsy req.timestamp) = true →
      interactions_handler adminRoleId hexOk verifies store req
        = ⟨.plain 401 "Missing signature headers", [], false⟩ ∧
      ∀ i' raw' body', pyDecodeUtf8 raw' = some body' →
        interactions_handler adminRoleId hexOk verifies store
          { req with interaction := i', rawBody := raw' }
        = ⟨.plain 401 "Missing signature headers", [], false⟩) ∧
    ((pyFalsy req.signature || pyFalsy req.timestamp) = false →
     hexOk (req.signature.getD "") = true →
     verifies (req.timestamp.getD "" ++ body) (req.signature.getD "") = false →
      interactions_handler adminRoleId hexOk verifies store req
        = ⟨.plain 401 "Invalid request signature", [], false⟩ ∧
      ∀ i', interactions_handler adminRoleId hexOk verifies store { req with interaction := i' }
        = ⟨.plain 401 "Invalid request signature", [], false⟩) := by
  constructor
  · intro h
    constructor
    · simp [interactions_handler, hdec, h]
    · intro i' raw' body' hdec'
      simp [interactions_handler, hdec', h]
  · intro h1 h2 h3
    constructor
    · simp [interactions_handler, hdec, h1, h2, h3]
    · intro i'
      simp [interactions_handler, hdec, h1, h2, h3]

/-- Witness for C1 as amended at concrete requests with the decodable body
byte `0x62` (`"b"`): a missing signature header and a failing verifier. -/
theorem C1_amended_signature_gate_witness :
    interactions_handler 1 (fun _ => true) (fun _ _ => false) []
        { signature := none, timestamp := some "171", rawBody := [98]
        , interaction := default }
      = ⟨.plain 401 "Missing signature headers", [], false⟩ ∧
    interactions_handler 1 (fun _ => true) (fun _ _ => false) []
        { signature := some "ab", timestamp := some "171", rawBody := [98]
        , interaction := default }
      = ⟨.plain 401 "Invalid request signature", [], false⟩ :=
  ⟨((C1_amended_signature_gate 1 (fun _ => true) (fun _ _ => false) []
      { signature := none, timestamp := some "171", rawBody := [98]
      , interaction := default } "b" (by decide)).1
      (by decide)).1,
   ((C1_amended_signature_gate 1 (fun _ => true) (fun _ _ => false) []
      { signature := some "ab", timestamp := some "171", rawBody := [98]
      , interaction := default } "b" (by decide)).2
      (by decide) rfl rfl).1⟩

/-- C8: a `pedidos` or `dashboard` command from an interaction whose
role-membership check fails receives the immediate ephemeral
permission-denied message, with no background task spawned and no store
query performed. -/
theorem C8_admin_gate (adminRoleId : Int) (store : List Order) (i : Interaction)
    (d : InteractionData) (h2 : i.itype = 2) (hd : i.data = some d)
    (hname : d.name = some "pedidos" ∨ d.name = some "dashboard")
    (hadm : is_admin adminRoleId i = false) :
    route adminRoleId store i = ⟨.json ⟨4, some permissionDeniedData⟩, [], false⟩ := by
  unfold route commandRoute
  rcases hname with hn | hn <;> simp [h2, hd, hn, hadm]

/-- Witness for C8: a user whose roles do not contain the admin role id
invokes `/pedidos`. -/
theorem C8_admin_gate_witness :
    route 42 [] { itype := 2, data := some { name := some "pedidos", custom_id := none }
                , member := some { user := none, roles := some ["555"] }
                , token := "tk", channel_id := none }
      = ⟨.json ⟨4, some permissionDeniedData⟩, [], false⟩ :=
  C8_admin_gate 42 [] _ { name := some "pedidos", custom_id := none } rfl rfl
    (Or.inl rfl) (by decide)

/-- C9: a component interaction with custom-identifier prefix `pedidos_` is
routed without consulting the invoking user's member/roles data: changing
the member field of the interaction leaves the outcome (response, spawned
tasks, store accesses) unchanged. -/
theorem C9_pedidos_component_role_independent (adminRoleId : Int) (store : List Order)
    (i : Interaction) (m : Option Member) (d : InteractionData) (cid : String)
    (h3 : i.itype = 3) (hd : i.data = some d) (hcid : d.custom_id = some cid)
    (hpref : pyStartsWith cid "pedidos_" = true) :
    route adminRoleId store { i with member := m } = route adminRoleId store i := by
  have hcat : pyStartsWith cid "catalog_" = false :=
    pyStartsWith_ne_head cid _ _ 'p' 'c' _ _ rfl rfl (by decide) hpref
  have hbuy : pyStartsWith cid "buy_" = false :=
    pyStartsWith_ne_head cid _ _ 'p' 'b' _ _ rfl rfl (by decide) hpref
  unfold route componentRoute
  simp [h3, hd, hcid, hpref, hcat, hbuy]

/-- Witness for C9: the `pedidos_confirm_7_0` click from an admin member
and from a non-admin member (admin role 999) produce the same outcome. -/
theorem C9_pedidos_component_role_independent_witness :
    route 999 []
        { itype := 3, data := some { name := none, custom_id := some "pedidos_confirm_7_0" }
        , member := some { user := none, roles := some ["1"] }
        , token := "tk", channel_id := none }
      = route 999 []
        { itype := 3, data := some { name := none, custom_id := some "pedidos_confirm_7_0" }
        , member := some { user := none, roles := some ["999"] }
        , token := "tk", channel_id := none } :=
  C9_pedidos_component_role_independent 999 []
    { itype := 3, data := some { name := none, custom_id := some "pedidos_confirm_7_0" }
    , member := some { user := none, roles := some ["999"] }
    , token := "tk", channel_id := none }
    (some { user := none, roles := some ["1"] })
    { name := none, custom_id := some "pedidos_confirm_7_0" } "pedidos_confirm_7_0"
    rfl rfl rfl (by decide)

/-- C10: the admin check is total over arbitrary interaction payloads — an
interaction lacking the member field, or whose member lacks the roles
field, is treated as non-admin (`is_admin` returns `false`) instead of
failing. -/
theorem C10_is_admin_total (adminRoleId : Int) (i : Interaction)
    (h : i.member = none ∨ ∃ m, i.member = some m ∧ m.roles = none) :
    is_admin adminRoleId i = false := by
  rcases h with h | ⟨m, hm, hr⟩
  · simp [is_admin, h]
  · simp [is_admin, hm, hr]

/-- After `k` next clicks from page `p` the page is `p + k`, as long as
that stays inside the catalog. -/
theorem iterNext_eq (k p : Nat) (h : p + k < PRODUTOS.length) : iterNext k p = p + k := by
  induction k generalizing p with
  | zero => simp [iterNext]
  | succ n ih =>
    have hlen : PRODUTOS.length = 3 := rfl
    rw [hlen] at h
    unfold iterNext
    have hc : clampPage ((p : Nat) + 1) PRODUTOS.length = p + 1 := by
      unfold clampPage
      rw [hlen]
      rw [min_eq_left (by push_cast; omega)]
      rw [max_eq_right (by positivity)]
      omega
    rw [show ((p : Int) + 1) = (((p + 1 : Nat) : Int)) by push_cast; ring] at hc ⊢
    rw [hc]
    rw [ih (p + 1) (by rw [hlen]; omega)]
    omega

/-- C6: every navigation transition renders the requested page clamped into
`[0, itemCount - 1]`: the catalog transition renders
`clampPage (page + step)` of the static catalog, the pending-orders view
renders the order at the clamped index (strictly below the item count), and
the empty pending list renders the fixed informational message with no
navigation components. -/
theorem C6_navigation_clamped :
    (∀ (action : String) (page : Int),
       (catalogNavigate action page).result
         = .json ⟨7, some (catalogView (clampPage (page + pyStep action) PRODUTOS.length))⟩ ∧
       clampPage (page + pyStep action) PRODUTOS.length < PRODUTOS.length) ∧
    (∀ (pending : List Order) (page : Int), pending ≠ [] →
       (build_pending_orders_view pending page).embeds
         = [pendingOrderEmbed (pending.getD (clampPage page pending.length) default)
             (clampPage page pending.length) pending.length] ∧
       clampPage page pending.length < pending.length) ∧
    (∀ (page : Int),
       build_pending_orders_view [] page
         = { content := some "✅ Não há pedidos pendentes no momento."
           , embeds := [], components := [], flags := none }) := by
  refine ⟨fun action page => ⟨rfl, clampPage_lt _ _ (by decide)⟩, ?_, fun page => rfl⟩
  intro pending page hne
  cases pending with
  | nil => exact absurd rfl hne
  | cons o os =>
    constructor
    · rfl
    · exact clampPage_lt _ _ (by simp)

/-- Witness for C6: a pending list of one order navigated to the
out-of-range page 5 renders the clamped page 0, and the empty pending
list renders the fixed message. -/
theorem C6_navigation_clamped_witness :
    ((build_pending_orders_view
        [{ id := 7, user_id := 10, user_name := "alice", product_id := "bot_musica"
         , product_name := "Bot de Música Avançado", thread_id := some 99
         , status := "pending_payment", created_at_ts := 1700000000 }] 5).embeds
      = [pendingOrderEmbed
          { id := 7, user_id := 10, user_name := "alice", product_id := "bot_musica"
          , product_name := "Bot de Música Avançado", thread_id := some 99
          , status := "pending_payment", created_at_ts := 1700000000 } 0 1] ∧
      clampPage 5 1 < 1) ∧
    build_pending_orders_view [] 5
      = { content := some "✅ Não há pedidos pendentes no momento."
        , embeds := [], components := [], flags := none } :=
  ⟨C6_navigation_clamped.2.1
      [{ id := 7, user_id := 10, user_name := "alice", product_id := "bot_musica"
       , product_name := "Bot de Música Avançado", thread_id := some 99
       , status := "pending_payment", created_at_ts := 1700000000 }] 5 (by decide),
   C6_navigation_clamped.2.2 5⟩

/-- C7: the catalog view is identical whether produced by the initial
`/comprar` command or by navigation clicks: the `/comprar` response carries
exactly the embeds and components of catalog page 0, the
`catalog_next_0`-then-`catalog_prev_1` round trip renders page 0 again,
and rendering page `k` directly equals rendering page 0 followed by `k`
sequential next transitions whenever the catalog has at least `k + 1`
products. -/
theorem C7_catalog_view_symmetry :
    (comprarData.embeds = (catalogView 0).embeds ∧
     comprarData.components = (catalogView 0).components) ∧
    ((catalogNavigate "next" 0).result = .json ⟨7, some (catalogView 1)⟩ ∧
     (catalogNavigate "prev" 1).result = .json ⟨7, some (catalogView 0)⟩) ∧
    (∀ k, k < PRODUTOS.length → catalogView (iterNext k 0) = catalogView k) := by
  refine ⟨⟨rfl, rfl⟩, ⟨rfl, rfl⟩, fun k hk => ?_⟩
  rw [iterNext_eq k 0 (by omega), Nat.zero_add]

/-- Witness for C7 at the last page of the catalog: two next clicks from
page 0 land on page 2. -/
theorem C7_catalog_view_symmetry_witness :
    catalogView (iterNext 2 0) = catalogView 2 :=
  C7_catalog_view_symmetry.2.2 2 (by decide)

/-- An order already in the terminal `cancelled` state (for the C2
analysis). -/
def cancelledOrder : Order :=
  { id := 1, user_id := 10, user_name := "alice", product_id := "bot_musica"
  , product_name := "Bot de Música Avançado", thread_id := some 99
  , status := "cancelled", created_at_ts := 1700000000 }

/-- An order already in the terminal `completed` state (for the C2
analysis). -/
def completedOrder : Order :=
  { id := 1, user_id := 10, user_name := "alice", product_id := "bot_musica"
  , product_name := "Bot de Música Avançado", thread_id := some 99
  , status := "completed", created_at_ts := 1700000000 }

/-- C2 counterexample: the status update has no current-status filter, so a
confirm on an order already in the terminal `cancelled` state moves it to
`completed`, and a cancel on an order already `completed` moves it to
`cancelled` — the state machine is not one-way on terminal states. -/
theorem C2_counterexample :
    cancelledOrder.status = "cancelled" ∧
    (handle_confirm_order [cancelledOrder] "pedidos_confirm_1_0").store.map Order.status
      = ["completed"] ∧
    completedOrder.status = "completed" ∧
    (handle_cancel_order [completedOrder] "pedidos_cancel_1_0").store.map Order.status
      = ["cancelled"] := by
  refine ⟨rfl, ?_, rfl, ?_⟩ <;> decide

/-- C2 as amended: confirm unconditionally sets the status of every order
with the given id to `completed` and cancel to `cancelled`, regardless of
the prior status (so `pending_payment → completed/cancelled` hold, but
terminal states are not protected); orders with other ids are untouched; a
second confirm on an already-`completed` order leaves the store unchanged
and produces no error patch provided the order exists. -/
theorem C2_amended_lifecycle (store : List Order) (oid page : Int) :
    (∀ o, o ∈ (confirm_order_core store oid page).store → o.id = oid →
       o.status = "completed") ∧
    (∀ o, o ∈ (cancel_order_core store oid page).store → o.id = oid →
       o.status = "cancelled") ∧
    (∀ o, o ∈ store → o.id ≠ oid → o ∈ (confirm_order_core store oid page).store) ∧
    ((∀ o, o ∈ store → o.id = oid → o.status = "completed") →
       (confirm_order_core store oid page).store = store) ∧
    ((∃ o, o ∈ store ∧ o.id = oid) →
       ∀ s, (confirm_order_core store oid page).patch ≠ .errorText s) := by
  refine ⟨?_, ?_, ?_, ?_, ?_⟩
  · intro o ho hid
    rw [confirm_order_core_store] at ho
    exact updateStatusById_mem_status store oid "completed" o ho hid
  · intro o ho hid
    rw [cancel_order_core_store] at ho
    exact updateStatusById_mem_status store oid "cancelled" o ho hid
  · intro o ho hne
    rw [confirm_order_core_store]
    exact updateStatusById_mem_other store oid "completed" o ho hne
  · intro h
    rw [confirm_order_core_store]
    exact updateStatusById_noop store oid "completed" h
  · rintro ⟨o, ho, hid⟩ s
    unfold confirm_order_core
    dsimp only
    cases hf : (updateStatusById store oid "completed").find? (fun x => x.id == oid) with
    | none =>
      exfalso
      rw [List.find?_eq_none] at hf
      refine hf ({ o with status := "completed" }) ?_ (by simp [hid])
      simp only [updateStatusById, List.mem_map]
      exact ⟨o, ho, by simp [hid]⟩
    | some ord => simp

/-- Witness for C2: a second confirm on a store holding one
already-`completed` order changes nothing and produces no error patch. -/
theorem C2_amended_lifecycle_witness :
    (confirm_order_core [completedOrder] 1 0).store = [completedOrder] ∧
    (∀ s, (confirm_order_core [completedOrder] 1 0).patch ≠ .errorText s) := by
  have h := C2_amended_lifecycle [completedOrder] 1 0
  refine ⟨h.2.2.2.1 ?_, h.2.2.2.2 ⟨completedOrder, by simp, rfl⟩⟩
  intro o ho _
  rw [List.mem_singleton.mp ho]
  rfl

/-- C3 counterexample: the membership-add call's response status is never
checked, so with a non-2xx (403) membership-add response and every other
step succeeding, `handle_buy_action` still patches the success follow-up —
the buyer receives the success message although one of the four steps
failed. -/
theorem C3_counterexample :
    is2xx 403 = false ∧
    handle_buy_action
        { threadCreate := .status 201, threadId := 555, memberAdd := .status 403
        , insertOk := true, messagePost := .status 404 }
        "buy_bot_musica" (some "777")
        (some { user := some { id := "42", username := "buyer" }, roles := some [] })
      = .success 555 ∧
    is2xx 404 = false := by
  refine ⟨rfl, ?_, rfl⟩
  decide

/-- C3 as amended: every raised failure — a thread-creation network error
or non-2xx response (the only call followed by `raise_for_status`), a
membership-add network error, a failed order insert, or a payment-message
network error — is caught and converted into the single generic failure
follow-up; conversely the success follow-up is only delivered when none of
the calls raised.  Non-2xx responses of the membership-add and
payment-message calls are not failures in this code: they are ignored. -/
theorem C3_amended_buy_followup (env : BuyEnv) (cid : String)
    (ch : Option String) (m : Option Member) :
    ((raisesForStatus env.threadCreate = true ∨ raisesOnCall env.memberAdd = true ∨
      env.insertOk = false ∨ raisesOnCall env.messagePost = true) →
      handle_buy_action env cid ch m = .failure ∨
      handle_buy_action env cid ch m = .productNotFound) ∧
    (∀ t, handle_buy_action env cid ch m = .success t →
      raisesForStatus env.threadCreate = false ∧ raisesOnCall env.memberAdd = false ∧
      env.insertOk = true ∧ raisesOnCall env.messagePost = false) := by
  constructor
  · intro h
    unfold handle_buy_action
    dsimp only
    cases PRODUTOS.find? (fun p => p.id == splitFirstTail cid) with
    | none => exact Or.inr rfl
    | some prod =>
      cases m.bind Member.user with
      | none => exact Or.inl rfl
      | some u =>
        cases ch with
        | none => exact Or.inl rfl
        | some c =>
          rcases h with h | h | h | h <;> (repeat' split) <;> simp_all
  · intro t ht
    unfold handle_buy_action at ht
    dsimp only at ht
    cases hfind : PRODUTOS.find? (fun p => p.id == splitFirstTail cid) with
    | none => rw [hfind] at ht; simp at ht
    | some prod =>
      rw [hfind] at ht
      cases hm : m.bind Member.user with
      | none => rw [hm] at ht; simp at ht
      | some u =>
        rw [hm] at ht
        cases ch with
        | none => simp at ht
        | some c =>
          repeat' split at ht
          all_goals simp_all

/-- Witness for C3 as amended: a failed thread creation yields the failure
follow-up. -/
theorem C3_amended_buy_followup_witness :
    handle_buy_action
        { threadCreate := .exn, threadId := 0, memberAdd := .status 204
        , insertOk := true, messagePost := .status 200 }
        "buy_bot_musica" (some "777")
        (some { user := some { id := "42", username := "buyer" }, roles := some [] })
      = .failure ∨
    handle_buy_action
        { threadCreate := .exn, threadId := 0, memberAdd := .status 204
        , insertOk := true, messagePost := .status 200 }
        "buy_bot_musica" (some "777")
        (some { user := some { id := "42", username := "buyer" }, roles := some [] })
      = .productNotFound :=
  (C3_amended_buy_followup
      { threadCreate := .exn, threadId := 0, memberAdd := .status 204
      , insertOk := true, messagePost := .status 200 }
      "buy_bot_musica" (some "777")
      (some { user := some { id := "42", username := "buyer" }, roles := some [] })).1
    (Or.inl rfl)

/-- C4 counterexample: the `buy_` component spawns a background task yet
acknowledges with type 5 (deferred channel message), not the type 6
deferred update the claim requires for background component work. -/
theorem C4_counterexample :
    (route 1 [] { itype := 3
                , data := some { name := none, custom_id := some "buy_bot_musica" }
                , member := none, token := "tk", channel_id := some "123" }).spawned
      = [.buy "tk" "buy_bot_musica" (some "123") none] ∧
    (route 1 [] { itype := 3
                , data := some { name := none, custom_id := some "buy_bot_musica" }
                , member := none, token := "tk", channel_id := some "123" }).result
      = .json ⟨5, some ephemeralDeferData⟩ := by
  decide

/-- C4 as amended: every handler that spawns a background task returns a
deferred acknowledgement synchronously — type 5 (with the ephemeral flag)
or type 6, never type 4 or 7 — but the type is not split along
command/component lines: the buy component also uses type 5. -/
theorem C4_amended_deferred_ack (adminRoleId : Int) (store : List Order) (i : Interaction)
    (h : (route adminRoleId store i).spawned ≠ []) :
    (route adminRoleId store i).result = .json ⟨5, some ephemeralDeferData⟩ ∨
    (route adminRoleId store i).result = .json ⟨6, none⟩ :=
  (route_spawn_shape adminRoleId store i).resolve_left h

/-- Witness for C4 as amended: the buy component click. -/
theorem C4_amended_deferred_ack_witness :
    (route 1 [] { itype := 3
                , data := some { name := none, custom_id := some "buy_bot_musica" }
                , member := none, token := "tk", channel_id := some "123" }).result
      = .json ⟨5, some ephemeralDeferData⟩ ∨
    (route 1 [] { itype := 3
                , data := some { name := none, custom_id := some "buy_bot_musica" }
                , member := none, token := "tk", channel_id := some "123" }).result
      = .json ⟨6, none⟩ :=
  C4_amended_deferred_ack 1 []
    { itype := 3, data := some { name := none, custom_id := some "buy_bot_musica" }
    , member := none, token := "tk", channel_id := some "123" }
    (by decide)

/-- C5 counterexample: a component click whose custom identifier has the
recognized `catalog_` prefix but a non-numeric page field raises an
uncaught `ValueError` (HTTP 500) instead of answering with the generic
ephemeral not-recognized JSON message. -/
theorem C5_counterexample :
    (route 1 [] { itype := 3
                , data := some { name := none, custom_id := some "catalog_next_abc" }
                , member := none, token := "tk", channel_id := none }).result
      = .fault "catalog page field missing or non-numeric" ∧
    (route 1 [] { itype := 3
                , data := some { name := none, custom_id := some "catalog_next_abc" }
                , member := none, token := "tk", channel_id := none }).result
      ≠ .json ⟨4, some genericData⟩ := by
  decide

/-- C5 as amended: an unrecognized command name, an unrecognized
custom-identifier prefix, and an unrecognized interaction type all receive
the generic ephemeral not-recognized JSON message (never silently dropped);
but a custom identifier with the recognized `catalog_` prefix whose page
field is missing or non-numeric raises an unhandled parse fault instead of
any JSON response. -/
theorem C5_amended_dispatch (adminRoleId : Int) (store : List Order) :
    (∀ (i : Interaction) (d : InteractionData) (name : String),
       i.itype = 2 → i.data = some d → d.name = some name →
       name ≠ "comprar" → name ≠ "pedidos" → name ≠ "dashboard" →
       route adminRoleId store i = genericOutcome) ∧
    (∀ (i : Interaction) (d : InteractionData) (cid : String),
       i.itype = 3 → i.data = some d → d.custom_id = some cid →
       pyStartsWith cid "catalog_" = false → pyStartsWith cid "buy_" = false →
       pyStartsWith cid "pedidos_" = false →
       route adminRoleId store i = genericOutcome) ∧
    (∀ (i : Interaction), i.itype ≠ 1 → i.itype ≠ 2 → i.itype ≠ 3 →
       route adminRoleId store i = genericOutcome) ∧
    (∀ (i : Interaction) (d : InteractionData) (cid : String),
       i.itype = 3 → i.data = some d → d.custom_id = some cid →
       pyStartsWith cid "catalog_" = true →
       parseIntPart (pySplit '_' cid) 2 = none →
       (route adminRoleId store i).result
         = .fault "catalog page field missing or non-numeric") := by
  refine ⟨?_, ?_, ?_, ?_⟩
  · intro i d name h2 hd hn hn1 hn2 hn3
    unfold route commandRoute
    simp [h2, hd, hn, hn1, hn2, hn3]
  · intro i d cid h3 hd hc hp1 hp2 hp3
    unfold route componentRoute
    simp [h3, hd, hc, hp1, hp2, hp3, genericOutcome]
  · intro i h1 h2 h3
    unfold route
    simp [h1, h2, h3]
  · intro i d cid h3 hd hc hp hparse
    unfold route componentRoute
    simp [h3, hd, hc, hp, hparse]

/-- Witness for C5 as amended: an unknown command name receives the
generic not-recognized message. -/
theorem C5_amended_dispatch_witness :
    route 1 [] { itype := 2, data := some { name := some "vender", custom_id := none }
               , member := none, token := "tk", channel_id := none }
      = genericOutcome :=
  (C5_amended_dispatch 1 []).1
    { itype := 2, data := some { name := some "vender", custom_id := none }
    , member := none, token := "tk", channel_id := none }
    { name := some "vender", custom_id := none } "vender"
    rfl rfl rfl (by decide) (by decide) (by decide)

/-- Witness for C10: a payload with no member field at all. -/
theorem C10_is_admin_total_witness :
    is_admin 5 { itype := 2, data := none, member := none, token := "", channel_id := none }
      = false :=
  C10_is_admin_total 5
    { itype := 2, data := none, member := none, token := "", channel_id := none }
    (Or.inl rfl)

end DiscordBot
